import Mathlib

/-!
Verification of the vehicle-position collection pipeline
(apps/collector/src: ptv_client.py, main.py, route_corrections.py).

The Python code is shallowly embedded: JSON numbers become an explicit
`PyFloat` type (a rational, or one of the IEEE specials NaN/±Inf that
the Python `json.loads` accepts), JSON fields that may be absent or null
become `Option`s, network calls become explicit outcome values passed in,
and the process-wide caches become explicit state threaded through the
functions.
-/

/-- A Python float as it can arrive from `json.loads`: a finite number
(modelled as a rational) or one of the specials `nan`, `inf`, `-inf`,
which the Python JSON parser accepts by default. -/
inductive PyFloat where
  | num (q : ℚ)
  | nan
  | inf
  | ninf
deriving DecidableEq, Repr

namespace PyFloat

/-- Python truthiness of a float: `bool(0.0)` is `False`; every other
float, including `nan` and the infinities, is truthy. -/
def truthy : PyFloat → Bool
  | num q => q ≠ 0
  | _ => true

/-- Whether the value is a finite number (what `math.isfinite` would say). -/
def finite : PyFloat → Bool
  | num _ => true
  | _ => false

/-- Python float subtraction, with IEEE special-value propagation. -/
def sub : PyFloat → PyFloat → PyFloat
  | nan, _ => nan
  | _, nan => nan
  | inf, inf => nan
  | ninf, ninf => nan
  | inf, _ => inf
  | ninf, _ => ninf
  | num _, inf => ninf
  | num _, ninf => inf
  | num a, num b => num (a - b)

/-- Python `abs` on floats: `abs(nan)` is `nan`, `abs(±inf)` is `inf`. -/
def abs : PyFloat → PyFloat
  | num q => num |q|
  | nan => nan
  | _ => inf

/-- Python `x != 0` on a float: true for `nan` and the infinities. -/
def neZero : PyFloat → Bool
  | num q => q ≠ 0
  | _ => true

/-- Python `<=` on floats: any comparison involving `nan` is `False`. -/
def le : PyFloat → PyFloat → Bool
  | nan, _ => false
  | _, nan => false
  | ninf, _ => true
  | _, inf => true
  | inf, _ => false
  | _, ninf => false
  | num a, num b => a ≤ b

end PyFloat

/-- Python truthiness of an optional float field, where `none` stands for
a key that is absent or holds JSON null (`dict.get` returns `None` for
both, and `None` is falsy). -/
def optTruthy : Option PyFloat → Bool
  | none => false
  | some x => x.truthy

/-- A JSON primitive as it appears in the run fields `run_ref`, `run_id`
and `route_id`: null, a string, or an integer. -/
inductive PyPrim where
  | pnull
  | pstr (s : String)
  | pint (n : Int)
deriving DecidableEq, Repr

/-- Python `str(...)` on such a primitive: `str(None)` is the four-letter
string `"None"`, integers print in decimal. -/
def pyStr : PyPrim → String
  | .pnull => "None"
  | .pstr s => s
  | .pint n => toString n

/-- The `vehicle_position` sub-object of a run. Each field is `none` when
the key is absent or null (indistinguishable through `dict.get`). -/
structure RunPos where
  latitude : Option PyFloat
  longitude : Option PyFloat
  bearing : Option PyFloat
  datetime_utc : Option String
deriving DecidableEq, Repr

/-- The empty `vehicle_position` dictionary, the default `_extract_vehicle_data`
uses via `run.get("vehicle_position", {})`. -/
def emptyPos : RunPos := ⟨none, none, none, none⟩

/-- A run object from the runs endpoint. `vehicle_position` is `none` when
the sub-object is absent, null, or the empty dict `{}` (all falsy and all
yielding no coordinates, hence never a record). -/
structure Run where
  run_ref : Option PyPrim
  run_id : Option PyPrim
  route_id : Option PyPrim
  direction_id : Option Int
  vehicle_position : Option RunPos
deriving DecidableEq, Repr

/-- The vehicle dictionary built by `PTVClient._extract_vehicle_data`. -/
structure Vehicle where
  vehicle_id : String
  route_id : String
  run_id : String
  latitude : PyFloat
  longitude : PyFloat
  timestamp : String
  direction_id : Option Int
  heading : Option PyFloat
  route_type : Nat
deriving DecidableEq, Repr

/-- `PTVClient._extract_vehicle_data(run, route_type)`: returns `None`
unless `pos.get("latitude")` and `pos.get("longitude")` are both truthy;
otherwise builds the vehicle dict, with `vehicle_id` from
`str(run.get("run_ref", run.get("run_id", "")))`, `heading` set only when
`bearing` is truthy, and the coordinates passed through `float` unchanged. -/
def extractVehicleData (run : Run) (routeType : Nat) : Option Vehicle :=
  let pos := run.vehicle_position.getD emptyPos
  match pos.latitude, pos.longitude with
  | some lat, some lng =>
    if lat.truthy && lng.truthy then
      some
        { vehicle_id := pyStr (run.run_ref.getD (run.run_id.getD (.pstr "")))
          route_id := pyStr (run.route_id.getD (.pstr ""))
          run_id := pyStr (run.run_id.getD (.pstr ""))
          latitude := lat
          longitude := lng
          timestamp := pos.datetime_utc.getD ""
          direction_id := run.direction_id
          heading := match pos.bearing with
            | some b => if b.truthy then some b else none
            | none => none
          route_type := routeType }
    else none
  | _, _ => none

/-- The body of a runs-endpoint response: the `runs` array. -/
structure RunsResp where
  runs : List Run
deriving DecidableEq, Repr

/-- `PTVClient.get_runs_for_route` after `make_request`: a failed request
(`None`) yields `[]`; otherwise keeps only the runs whose
`vehicle_position` is truthy. -/
def getRunsForRoute (response : Option RunsResp) : List Run :=
  match response with
  | none => []
  | some r => r.runs.filter (fun run => run.vehicle_position.isSome)

/-- `PTVClient._fetch_vehicles_parallel`, with the per-route task outcomes
supplied as a value: `.ok runs` when `future.result()` returned, `.error e`
when it raised. A raising task is logged and contributes nothing; a
returning task contributes one extracted vehicle per qualifying run. The
unordered fan-in is modelled in submission order, which fixes one
interleaving of the order-independent concatenation. -/
def fetchVehiclesParallel (results : Option Int → Except String (List Run))
    (routeType : Nat) : List (Option Int) → List Vehicle
  | [] => []
  | rid :: rest =>
    (match results rid with
     | .ok runs => runs.filterMap (fun run => extractVehicleData run routeType)
     | .error _ => []) ++ fetchVehiclesParallel results routeType rest

/-- The outcome of one `urllib.request.urlopen` call inside
`PTVClient.make_request`: a response with a status code and a body whose
JSON parse either succeeds or raises, or one of the exception paths the
code catches (`HTTPError`, `URLError`, anything else). -/
inductive HttpOutcome (α : Type) where
  | response (status : Nat) (body : Except String α)
  | httpError (code : Nat) (reason : String)
  | urlError (reason : String)
  | otherError (msg : String)

/-- `PTVClient.make_request`: returns the parsed body when the status is
200; prints and returns `None` on a non-200 status; every exception path
(HTTP error, URL error, JSON parse failure, anything else) is caught,
printed, and yields `None`. One call consumes exactly one outcome — no
retry. -/
def makeRequest {α : Type} : HttpOutcome α → Option α
  | .response status (.ok body) => if status = 200 then some body else none
  | .response _ (.error _) => none
  | .httpError _ _ => none
  | .urlError _ => none
  | .otherError _ => none

/-- One entry of the routes-endpoint `routes` array; `route_id` is `none`
when the key is absent (so `route.get("route_id")` returns `None`). -/
structure RouteEntry where
  route_id : Option Int
deriving DecidableEq, Repr

/-- The body of a routes-endpoint response: the `routes` array. `none` at
the `Option RoutesResp` level stands for `make_request` returning `None`
or a falsy (empty-dict) body, both of which fail `if not response`. -/
structure RoutesResp where
  routes : List RouteEntry
deriving DecidableEq, Repr

/-- The process-wide `PTVClient._route_cache`, keyed by route_type. -/
abbrev RouteCache := List (Nat × List (Option Int))

/-- `PTVClient.get_routes(route_type, use_cache)` with the cache threaded
explicitly and the network outcome supplied as `response`. Returns the
route-id list, the cache afterwards, and whether the network was consulted
(`make_request` called). A cache hit short-circuits. A falsy response
returns `[]` before the caching line runs. Otherwise the ids are the
per-entry `route.get("route_id")` values — `none` included for entries
lacking the key — and that list is stored in the cache, empty or not. -/
def getRoutes (cache : RouteCache) (routeType : Nat) (useCache : Bool)
    (response : Option RoutesResp) : List (Option Int) × RouteCache × Bool :=
  if useCache && (cache.lookup routeType).isSome then
    ((cache.lookup routeType).getD [], cache, false)
  else
    match response with
    | none => ([], cache, true)
    | some resp =>
      let routeIds := resp.routes.map (fun route => route.route_id)
      (routeIds, (routeType, routeIds) :: cache, true)

/-- The `VehicleCollector.last_positions` cache: vehicle_id ↦ last stored
vehicle dict. -/
abbrev LastPositions := List (String × Vehicle)

/-- `VehicleCollector.should_store(vehicle)`: true for a vehicle_id not in
`last_positions`; otherwise true iff `abs(lat - last_lat) != 0 or
abs(lng - last_lng) != 0` in Python float arithmetic. -/
def shouldStore (lastPositions : LastPositions) (vehicle : Vehicle) : Bool :=
  match lastPositions.lookup vehicle.vehicle_id with
  | none => true
  | some last =>
    let latDiff := (vehicle.latitude.sub last.latitude).abs
    let lngDiff := (vehicle.longitude.sub last.longitude).abs
    latDiff.neZero || lngDiff.neZero

/-- The filter-and-cache loop of `VehicleCollector.collect_once`: for each
fetched vehicle in order, if `should_store` accepts it, append it to
`vehicles_to_store` and overwrite `last_positions[vehicle_id]` at once, so
later vehicles in the same cycle compare against the updated cache.
Returns the batch handed to the persistence sink and the cache after the
cycle. The vehicles flow through unmodified — no field is rewritten
between fetch and store. -/
def collectOnceFilter (lastPositions : LastPositions) :
    List Vehicle → List Vehicle × LastPositions
  | [] => ([], lastPositions)
  | v :: rest =>
    if shouldStore lastPositions v then
      let step := collectOnceFilter ((v.vehicle_id, v) :: lastPositions) rest
      (v :: step.1, step.2)
    else
      collectOnceFilter lastPositions rest

/-- An axis-aligned zone bounding box `(min_lng, min_lat, max_lng, max_lat)`
as stored in `ZONES`. The stored bounds are numeric literals. -/
structure BBox where
  min_lng : ℚ
  min_lat : ℚ
  max_lng : ℚ
  max_lat : ℚ
deriving DecidableEq, Repr

/-- The containment test of `correct_route_id`:
`min_lng <= longitude <= max_lng and min_lat <= latitude <= max_lat`,
chained Python float comparisons. -/
def bboxContains (b : BBox) (lng lat : PyFloat) : Bool :=
  ((PyFloat.num b.min_lng).le lng && lng.le (.num b.max_lng)) &&
    ((PyFloat.num b.min_lat).le lat && lat.le (.num b.max_lat))

/-- A zone table as iterated by `correct_route_id`: `ZONES.items()` in
insertion order, each item an authoritative route_id with its list of
bounding boxes. -/
abbrev ZoneTable := List (String × List BBox)

/-- The nested loop of `correct_route_id`: for each zone in declaration
order, for each of its boxes, the first containing box returns the id of
that zone (after the logged-override branch, which returns the same id either
way); if no box of any zone contains the point, the input id is returned. -/
def zoneScan : ZoneTable → PyFloat → PyFloat → String → String
  | [], _, _, routeId => routeId
  | (correctId, bboxes) :: rest, lng, lat, routeId =>
    if bboxes.any (fun b => bboxContains b lng lat) then
      if routeId ≠ correctId then correctId else routeId
    else
      zoneScan rest lng lat routeId

/-- `correct_route_id(longitude, latitude, route_id, vehicle_id)` from
route_corrections.py, over an explicit zone table (the source reads the
module-level `ZONES`). A falsy (empty) route_id returns unchanged before
any zone is examined. The vehicle id is only used for logging. -/
def correctRouteId (zones : ZoneTable) (lng lat : PyFloat)
    (routeId _vehicleId : String) : String :=
  if routeId = "" then routeId
  else zoneScan zones lng lat routeId

/-- Modelled from the spec: the zone table `ZONES` lives in
route_zones.py, which is absent from src/ (route_corrections.py only
imports it). The spec describes it as static reference data pairing a
route_id with one or more bounding boxes, and its end-to-end scenario
names a zone "77". The spec gives no concrete coordinates, so a
representative box is used. -/
def ZONES : ZoneTable := [("77", [⟨144, -38, 146, -36⟩])]

/-- A Python exception as relevant to the cycle boundary: the external
stop signal `KeyboardInterrupt`, or any other exception. -/
inductive PyExc where
  | keyboardInterrupt
  | exception (msg : String)
deriving DecidableEq, Repr

/-- The exception handling of `VehicleCollector.collect_once`: the try
block outcome is mapped so that `KeyboardInterrupt` re-raises (bubbles
up to stop the collector) while any other exception is printed with its
traceback and swallowed, the method returning normally. -/
def collectOnceResult : Except PyExc Unit → Except PyExc Unit
  | .ok _ => .ok ()
  | .error .keyboardInterrupt => .error .keyboardInterrupt
  | .error (.exception _) => .ok ()

/-- The `while True` loop of `VehicleCollector.run_forever`, driven by the
finite initial segment of per-cycle try-block outcomes observed so far: each cycle
runs `collect_once`, whose handled outcome either returns normally
(`cycle_count += 1`, sleep, next cycle) or raises `KeyboardInterrupt`,
which the surrounding `except KeyboardInterrupt` turns into a graceful
stop. Returns the number of completed cycles. -/
def cyclesRun : List (Except PyExc Unit) → Nat
  | [] => 0
  | outcome :: rest =>
    match collectOnceResult outcome with
    | .ok _ => cyclesRun rest + 1
    | .error _ => 0

-- Concrete inputs used by counterexamples and witnesses.

def c1run : Run :=
  { run_ref := some (.pstr "veh77"), run_id := some (.pint 9001),
    route_id := some (.pint 3), direction_id := some 1,
    vehicle_position := some ⟨some (.num (-37)), some (.num 145), none, some "t"⟩ }

def c1vehicle : Vehicle :=
  { vehicle_id := "veh77", route_id := "3", run_id := "9001", latitude := .num (-37),
    longitude := .num 145, timestamp := "t", direction_id := some 1, heading := none,
    route_type := 0 }

def c5run : Run :=
  { run_ref := some (.pstr "x"), run_id := some (.pint 1), route_id := some (.pint 3),
    direction_id := none,
    vehicle_position := some ⟨some .nan, some (.num 144), none, none⟩ }

def c9run : Run :=
  { run_ref := some .pnull, run_id := some (.pint 12345), route_id := some (.pint 3),
    direction_id := none,
    vehicle_position := some ⟨some (.num (-37)), some (.num 144), none, none⟩ }

def c9brun : Run :=
  { run_ref := none, run_id := some (.pint 777), route_id := some (.pint 3),
    direction_id := none,
    vehicle_position := some ⟨some (.num (-37)), some (.num 144), none, none⟩ }

def c9bvehicle : Vehicle :=
  { vehicle_id := "777", route_id := "3", run_id := "777", latitude := .num (-37),
    longitude := .num 144, timestamp := "", direction_id := none, heading := none,
    route_type := 0 }

def wVehicleA : Vehicle :=
  { vehicle_id := "v1", route_id := "3", run_id := "9001", latitude := .num 1,
    longitude := .num 2, timestamp := "t", direction_id := none, heading := none,
    route_type := 0 }

def wVehicleB : Vehicle := { wVehicleA with latitude := .num 5 }

def wVehicleInf : Vehicle :=
  { vehicle_id := "vI", route_id := "3", run_id := "1", latitude := .inf,
    longitude := .num 144, timestamp := "t", direction_id := none, heading := none,
    route_type := 0 }

def wResults : Option Int → Except String (List Run) :=
  fun r => if r = some 1 then .error "boom" else .ok [c1run]

-- ===== helper lemmas =====

lemma zoneScan_eq_find (zones : ZoneTable) (lng lat : PyFloat) (rid : String) :
    zoneScan zones lng lat rid =
      (match zones.find? (fun z => z.2.any (fun b => bboxContains b lng lat)) with
       | some z => z.1
       | none => rid) := by
  induction zones with
  | nil => rfl
  | cons z rest ih =>
    rcases z with ⟨cid, bboxes⟩
    by_cases h : (bboxes.any fun b => bboxContains b lng lat) = true
    · simp only [zoneScan, List.find?_cons, h, if_pos]
      by_cases hr : rid = cid <;> simp [hr]
    · simp only [zoneScan, List.find?_cons]
      rw [Bool.not_eq_true] at h
      simp [h, ih]

lemma bboxContains_num (b : BBox) (lo la : ℚ) :
    bboxContains b (.num lo) (.num la) =
      (decide (b.min_lng ≤ lo) && decide (lo ≤ b.max_lng) &&
       (decide (b.min_lat ≤ la) && decide (la ≤ b.max_lat))) := by
  simp [bboxContains, PyFloat.le]

-- ===== C6 =====

/-- Claim C6: correct_route_id is a pure function that scans the zones in
declaration order and returns the authoritative route_id of the first zone
with a bounding box containing the point, under inclusive bounds on all
four edges (a rational point exactly on a box edge counts as inside); if no
zone contains the point, or the input route_id is falsy (empty), the input
route_id is returned unchanged. -/
theorem correctRouteId_first_match_inclusive :
    (∀ (zones : ZoneTable) (lng lat : PyFloat) (rid vid : String),
      correctRouteId zones lng lat rid vid =
        (if rid = "" then rid
         else
           match zones.find? (fun z => z.2.any (fun b => bboxContains b lng lat)) with
           | some z => z.1
           | none => rid)) ∧
    ∀ (b : BBox) (lo la : ℚ),
      bboxContains b (.num lo) (.num la) =
        (decide (b.min_lng ≤ lo) && decide (lo ≤ b.max_lng) &&
         (decide (b.min_lat ≤ la) && decide (la ≤ b.max_lat))) := by
  constructor
  · intro zones lng lat rid vid
    by_cases hr : rid = ""
    · simp [correctRouteId, hr]
    · simp [correctRouteId, hr, zoneScan_eq_find]
  · exact bboxContains_num

-- ===== C2 =====


/-- Witness for C6 at concrete inputs. -/
theorem correctRouteId_first_match_inclusive_witness :
    correctRouteId ZONES (.num 145) (.num (-37)) "9" "v" =
      (if ("9" : String) = "" then "9"
       else
         match ZONES.find? (fun z =>
             z.2.any (fun b => bboxContains b (.num 145) (.num (-37)))) with
         | some z => z.1
         | none => "9") :=
  correctRouteId_first_match_inclusive.1 ZONES (.num 145) (.num (-37)) "9" "v"

/-- Counterexample to claim C2 as stated: for a cached vehicle re-reported
at the identical position with an infinite latitude — reachable, since
extraction constructs non-finite coordinates — should_store returns true
although neither coordinate differs: abs(inf - inf) is nan, and nan != 0
is True in Python. -/
theorem shouldStore_counterexample :
    shouldStore [("vI", wVehicleInf)] wVehicleInf = true ∧
    ¬(wVehicleInf.latitude ≠ wVehicleInf.latitude ∨
      wVehicleInf.longitude ≠ wVehicleInf.longitude) :=
  ⟨rfl, by simp⟩

/-- Claim C2 as amended: should_store returns true for every position whose
vehicle_id is not in the change-detection cache; for a cached vehicle_id
whose stored and incoming coordinates are all finite, it returns true iff
the latitude or the longitude differs (strict inequality, no epsilon
tolerance) from the last stored value, and otherwise false. (When a
non-finite coordinate is involved, the NaN-propagating abs-difference test
can return true even for an identical position.) -/
theorem shouldStore_spec (cache : LastPositions) (v : Vehicle) :
    (cache.lookup v.vehicle_id = none → shouldStore cache v = true) ∧
    ∀ (last : Vehicle) (a b a' b' : ℚ),
      cache.lookup v.vehicle_id = some last →
      v.latitude = .num a → v.longitude = .num b →
      last.latitude = .num a' → last.longitude = .num b' →
      (shouldStore cache v = true ↔ (a ≠ a' ∨ b ≠ b')) := by
  constructor
  · intro h
    simp [shouldStore, h]
  · intro last a b a' b' h h1 h2 h3 h4
    simp [shouldStore, h, h1, h2, h3, h4, PyFloat.sub, PyFloat.abs, PyFloat.neZero,
      abs_ne_zero, sub_ne_zero]



/-- Witness for C2 at concrete inputs. -/
theorem shouldStore_spec_witness :
    shouldStore [] wVehicleA = true ∧
    (shouldStore [("v1", wVehicleA)] wVehicleB = true ↔ ((5 : ℚ) ≠ 1 ∨ (2 : ℚ) ≠ 2)) :=
  ⟨(shouldStore_spec [] wVehicleA).1 rfl,
   (shouldStore_spec [("v1", wVehicleA)] wVehicleB).2 wVehicleA 5 2 1 2 rfl rfl rfl rfl rfl⟩

-- ===== C3 =====

/-- Claim C3: the parallel fetch tolerates partial failure: a route whose
task fails contributes zero records, no sibling task is aborted, and the
fetch still returns every record extracted from the surrounding routes —
the output over a route list with a failing route equals the concatenation
of the outputs over the routes before and after it. -/
theorem fetchParallel_failed_route_isolated
    (results : Option Int → Except String (List Run)) (rt : Nat)
    (pre post : List (Option Int)) (f : Option Int) (e : String)
    (h : results f = .error e) :
    fetchVehiclesParallel results rt (pre ++ f :: post) =
      fetchVehiclesParallel results rt pre ++ fetchVehiclesParallel results rt post := by
  induction pre with
  | nil => simp [fetchVehiclesParallel, h]
  | cons r rest ih => simp [fetchVehiclesParallel, ih, List.append_assoc]


/-- Witness for C3 at concrete inputs. -/
theorem fetchParallel_failed_route_isolated_witness :
    fetchVehiclesParallel wResults 0 ([some 0] ++ some 1 :: [some 2]) =
      fetchVehiclesParallel wResults 0 [some 0] ++ fetchVehiclesParallel wResults 0 [some 2] :=
  fetchParallel_failed_route_isolated wResults 0 [some 0] [some 2] (some 1) "boom" rfl

-- ===== C7 =====

/-- Claim C7: make_request returns the parsed JSON body exactly when the
HTTP outcome is a status-200 response with a well-formed body; on any
non-200 status, transport error, or malformed body it returns the failure
value (None). The function is total on outcomes — nothing escapes the
boundary — and consumes a single outcome: no retry. -/
theorem makeRequest_spec {α : Type} (o : HttpOutcome α) (b : α) :
    makeRequest o = some b ↔ o = .response 200 (.ok b) := by
  cases o with
  | response s body =>
    cases body with
    | ok x =>
      by_cases hs : s = 200
      · subst hs; simp [makeRequest]
      · simp [makeRequest, hs]
    | error e => simp [makeRequest]
  | httpError c r => simp [makeRequest]
  | urlError r => simp [makeRequest]
  | otherError m => simp [makeRequest]

-- ===== C8 =====


/-- Witness for C7 at a concrete outcome. -/
theorem makeRequest_spec_witness :
    makeRequest (HttpOutcome.response 200 (.ok (5 : Nat))) = some 5 ↔
      HttpOutcome.response 200 (.ok (5 : Nat)) = .response 200 (.ok 5) :=
  makeRequest_spec (HttpOutcome.response 200 (.ok (5 : Nat))) 5

/-- Claim C8: any exception inside a single collection cycle other than
KeyboardInterrupt is caught at the cycle boundary, after which the
scheduler proceeds to the next cycle (every cycle before the stop signal
completes and is counted); only KeyboardInterrupt terminates the loop,
exactly at its position in the cycle sequence. -/
theorem cyclesRun_spec (pre post : List (Except PyExc Unit))
    (h : ∀ o ∈ pre, o ≠ .error .keyboardInterrupt) :
    cyclesRun (pre ++ .error .keyboardInterrupt :: post) = pre.length ∧
    cyclesRun pre = pre.length := by
  induction pre with
  | nil => simp [cyclesRun, collectOnceResult]
  | cons o rest ih =>
    have ho := h o (by simp)
    have hrest : ∀ o' ∈ rest, o' ≠ .error .keyboardInterrupt :=
      fun o' ho' => h o' (by simp [ho'])
    obtain ⟨ih1, ih2⟩ := ih hrest
    cases o with
    | ok u => simp [cyclesRun, collectOnceResult, ih1, ih2]
    | error ex =>
      cases ex with
      | keyboardInterrupt => exact absurd rfl ho
      | exception m => simp [cyclesRun, collectOnceResult, ih1, ih2]

/-- Witness for C8 at concrete inputs. -/
theorem cyclesRun_spec_witness :
    cyclesRun [.ok (), .error (.exception "boom"), .error .keyboardInterrupt, .ok ()] = 2 ∧
    cyclesRun [.ok (), .error (.exception "boom")] = 2 :=
  cyclesRun_spec [.ok (), .error (.exception "boom")] [.ok ()]
    (by
      intro o ho
      simp only [List.mem_cons, List.not_mem_nil, or_false] at ho
      rcases ho with rfl | rfl <;> simp)

-- ===== C10 =====

/-- Claim C10: if the upstream routes request fails (make_request returns
None), get_routes returns an empty list and leaves the route cache
unchanged, so a subsequent call with use_cache=true consults the network
again — a failed fetch, unlike a successful-but-empty response, is not
sticky. -/
theorem getRoutes_failure_not_sticky (cache : RouteCache) (rt : Nat) (uc : Bool)
    (resp2 : Option RoutesResp) (h : cache.lookup rt = none) :
    getRoutes cache rt uc none = ([], cache, true) ∧
    (getRoutes (getRoutes cache rt uc none).2.1 rt true resp2).2.2 = true := by
  have h1 : getRoutes cache rt uc none = ([], cache, true) := by
    simp [getRoutes, h]
  refine ⟨h1, ?_⟩
  rw [h1]
  cases resp2 <;> simp [getRoutes, h]

/-- Witness for C10 at concrete inputs. -/
theorem getRoutes_failure_not_sticky_witness :
    getRoutes [] 0 true none = ([], [], true) ∧
    (getRoutes (getRoutes [] 0 true none).2.1 0 true none).2.2 = true :=
  getRoutes_failure_not_sticky [] 0 true none rfl

-- ===== C4 =====

/-- Counterexample to claim C4 as stated: an upstream entry lacking a
route_id is not skipped; it contributes a `None` id to the returned list. -/
theorem getRoutes_counterexample :
    (getRoutes [] 0 true (some ⟨[⟨none⟩]⟩)).1 = [none] ∧
    ([none] : List (Option Int)) ≠ [] := by
  constructor
  · rfl
  · simp

/-- Claim C4 as amended: on a cache miss (use_cache false or no cached
entry), get_routes returns the per-entry route.get("route_id") values —
with None, not skipped, for entries lacking an id — stores that list in
the cache keyed by route_type even when empty, and a subsequent
use_cache=true call returns the cached list without a network request. -/
theorem getRoutes_cache_miss (cache : RouteCache) (rt : Nat) (uc : Bool)
    (resp : RoutesResp) (resp2 : Option RoutesResp)
    (h : uc = false ∨ cache.lookup rt = none) :
    getRoutes cache rt uc (some resp) =
      (resp.routes.map (fun route => route.route_id),
       (rt, resp.routes.map (fun route => route.route_id)) :: cache, true) ∧
    getRoutes ((rt, resp.routes.map (fun route => route.route_id)) :: cache) rt true resp2 =
      (resp.routes.map (fun route => route.route_id),
       (rt, resp.routes.map (fun route => route.route_id)) :: cache, false) := by
  constructor
  · rcases h with h | h <;> simp [getRoutes, h]
  · simp [getRoutes, List.lookup]

/-- Witness for the amended C4 at concrete inputs, including the
cached-even-when-empty case. -/
theorem getRoutes_cache_miss_witness :
    getRoutes [] 0 true (some ⟨[]⟩) = ([], [(0, [])], true) ∧
    getRoutes [(0, [])] 0 true none = ([], [(0, [])], false) :=
  getRoutes_cache_miss [] 0 true ⟨[]⟩ none (Or.inr rfl)

-- ===== C5 =====

/-- Counterexample to claim C5 as stated: a run whose latitude is the
(truthy) non-finite value NaN does construct a record. -/
theorem extract_counterexample :
    (extractVehicleData c5run 0).map (fun v => v.latitude) = some .nan ∧
    PyFloat.finite .nan = false :=
  ⟨rfl, rfl⟩

/-- Claim C5 as amended: extraction constructs a VehiclePosition exactly
when the vehicle_position of the run carries both a latitude and a
longitude that are present and truthy (non-null, non-zero); a constructed
record carries the upstream coordinate values verbatim (never defaulted to
zero), and no finiteness check is performed. -/
theorem extract_truthy_coords (run : Run) (rt : Nat) :
    ((extractVehicleData run rt).isSome =
      (optTruthy (run.vehicle_position.getD emptyPos).latitude &&
       optTruthy (run.vehicle_position.getD emptyPos).longitude)) ∧
    ∀ v, extractVehicleData run rt = some v →
      (run.vehicle_position.getD emptyPos).latitude = some v.latitude ∧
      (run.vehicle_position.getD emptyPos).longitude = some v.longitude := by
  rcases h1 : (run.vehicle_position.getD emptyPos).latitude with _ | lat
  · constructor
    · simp [extractVehicleData, optTruthy, h1]
    · intro v hv
      simp [extractVehicleData, h1] at hv
  · rcases h2 : (run.vehicle_position.getD emptyPos).longitude with _ | lng
    · constructor
      · simp [extractVehicleData, optTruthy, h1, h2]
      · intro v hv
        simp [extractVehicleData, h1, h2] at hv
    · constructor
      · by_cases ht : lat.truthy = true ∧ lng.truthy = true
        · simp [extractVehicleData, optTruthy, h1, h2, ht.1, ht.2]
        · have hne : (lat.truthy && lng.truthy) = false := by
            rcases Bool.eq_false_or_eq_true lat.truthy with hl | hl <;>
              rcases Bool.eq_false_or_eq_true lng.truthy with hg | hg <;>
                simp_all
          simp [extractVehicleData, optTruthy, h1, h2, hne]
      · intro v hv
        simp [extractVehicleData, h1, h2] at hv
        obtain ⟨-, hv⟩ := hv
        subst hv
        exact ⟨rfl, rfl⟩

/-- Witness for the amended C5 at concrete inputs. -/
theorem extract_truthy_coords_witness :
    ((extractVehicleData c1run 0).isSome =
      (optTruthy (c1run.vehicle_position.getD emptyPos).latitude &&
       optTruthy (c1run.vehicle_position.getD emptyPos).longitude)) ∧
    (c1run.vehicle_position.getD emptyPos).latitude = some c1vehicle.latitude ∧
    (c1run.vehicle_position.getD emptyPos).longitude = some c1vehicle.longitude :=
  ⟨(extract_truthy_coords c1run 0).1, (extract_truthy_coords c1run 0).2 c1vehicle rfl⟩

-- ===== C9 =====

/-- Counterexample to claim C9 as stated: a run whose run_ref key is
present but null carries no usable reference code, yet vehicle_id becomes
"None" (str(None)), not the string coercion "12345" of its run_id. -/
theorem vehicleId_counterexample :
    (extractVehicleData c9run 0).map (fun v => v.vehicle_id) = some "None" ∧
    ("None" : String) ≠ "12345" := by
  exact ⟨rfl, by decide⟩

/-- Claim C9 as amended: vehicle_id is the string coercion of the run_ref
value whenever the run_ref key is present — even when it is null, which
yields "None" — and falls back to the string coercion of run_id only when
the run_ref key is absent. -/
theorem vehicleId_fallback (run : Run) (rt : Nat) (v : Vehicle)
    (h : extractVehicleData run rt = some v) :
    (run.run_ref = none → v.vehicle_id = pyStr (run.run_id.getD (.pstr ""))) ∧
    ∀ p, run.run_ref = some p → v.vehicle_id = pyStr p := by
  have hv : v.vehicle_id = pyStr (run.run_ref.getD (run.run_id.getD (.pstr ""))) := by
    rcases h1 : (run.vehicle_position.getD emptyPos).latitude with _ | lat <;>
      rcases h2 : (run.vehicle_position.getD emptyPos).longitude with _ | lng <;>
        simp [extractVehicleData, h1, h2] at h
    obtain ⟨-, h⟩ := h
    subst h
    rfl
  constructor
  · intro hr
    simp [hv, hr]
  · intro p hr
    simp [hv, hr]

/-- Witness for the amended C9 at a concrete run lacking the run_ref key. -/
theorem vehicleId_fallback_witness :
    c9bvehicle.vehicle_id = pyStr (c9brun.run_id.getD (.pstr "")) :=
  (vehicleId_fallback c9brun 0 c9bvehicle rfl).1 rfl

-- ===== C1 =====

/-- Claim C1 fails: the collection cycle never invokes the Geographic
Route Corrector. At the failing input — one fetched record whose
coordinates lie inside the bounding box of zone "77" with reported route_id
"3" — the record reaches the change-detection filter and the persistence
batch with route_id "3", although correct_route_id would return "77". -/
theorem pipeline_skips_route_correction :
    (collectOnceFilter []
        (fetchVehiclesParallel (fun _ => .ok [c1run]) 0 [some 3])).1.map
      (fun v => v.route_id) = ["3"] ∧
    correctRouteId ZONES (.num 145) (.num (-37)) "3" "veh77" = "77" ∧
    ("77" : String) ≠ "3" := by
  refine ⟨rfl, by decide, by decide⟩
